import Mathlib

/-!
Shallow embedding of the news-backend service (`main.py`, `schemas.py`):
the data model, the moderation gate, the placeholder translator, the
relevance scorer, the feed assembler with its translation cache, and the
standalone translation endpoint, together with theorems checking the
specification's claims against these definitions.

Conventions: machine floats become rationals (`ℚ`); timestamps are
rationals measured in seconds; each MongoDB collection becomes a list of
records queried in order (`find_one` is `List.find?`); Python truthiness
of optional strings is modelled explicitly (`truthyStr`); the per-article
`translated` dictionary becomes an association list.
-/

/-- Cached translation pair: one value of an article's `translated` map
(`schemas.Article.translated : lang -> \x7btitle, content\x7d`). -/
structure TransPair where
  title : String
  content : String
deriving DecidableEq

/-- Article document: the fields of `schemas.Article` that the handlers
under verification read or write, plus the Mongo `_id` (as `id`). -/
structure Article where
  id : String
  title : String
  content : String
  language : String
  region : Option String
  categories : List String
  moderation_status : String
  is_published : Bool
  created_at : Option ℚ
  translated : List (String × TransPair)
deriving DecidableEq

/-- User document: the fields of `schemas.User` read by `create_article`. -/
structure User where
  id : String
  is_verified : Bool
deriving DecidableEq

/-- Preference document (`schemas.Preference`). -/
structure Pref where
  user_id : String
  language : Option String
  region : Option String
  categories : List String
deriving DecidableEq

/-- Interaction document: the fields of `schemas.Interaction` read by
`get_feed`. -/
structure Interaction where
  user_id : String
  article_id : String
  action : String
deriving DecidableEq

/-- The database: one list per collection touched by the verified
handlers. -/
structure DBState where
  users : List User
  preferences : List Pref
  interactions : List Interaction
  articles : List Article
deriving DecidableEq

/-- Body of `ArticleCreateRequest` (`main.py` lines 35-42); the fields the
modelled handlers read. -/
structure ArticleCreateRequest where
  title : String
  content : String
  language : String
  region : Option String
  categories : List String
deriving DecidableEq

/-- Response of `create_article` (`main.py` line 181). -/
structure CreateResponse where
  id : String
  moderation_status : String
  moderation_notes : String
deriving DecidableEq

/-- Result of the moderation gate: a status and a notes string. -/
structure ModResult where
  status : String
  notes : String
deriving DecidableEq

/-- One element of the feed response (`main.py` lines 234-243). -/
structure FeedItem where
  id : String
  title : String
  content : String
  language : String
  region : Option String
  categories : List String
  moderation_status : String
  created_at : Option ℚ
deriving DecidableEq

/-- Error taxonomy of the handlers: HTTP 400, HTTP 404, and an unhandled
exception (HTTP 500). -/
inductive ApiError where
  | invalidArgument
  | notFound
  | internalError
deriving DecidableEq

/-- Python truthiness of an optional string: `None` and `""` are falsy. -/
def truthyStr : Option String → Bool
  | none => false
  | some s => !(s == "")

/-- Python `a or b` on optional strings, as used for
`language or pref.get("language")` (`main.py` lines 193-194). -/
def pyOrStr (a b : Option String) : Option String :=
  if truthyStr a then a else b

/-- ASCII lowercasing of a string, modelling Python `str.lower()` on the
texts involved (the banned keywords are ASCII). -/
def toLowerStr (s : String) : String :=
  String.mk (s.data.map Char.toLower)

/-- Python `", ".join(matched)` (`main.py` line 60). -/
def joinComma : List String → String
  | [] => ""
  | [s] => s
  | s :: rest => s ++ ", " ++ joinComma rest

/-- Does `n` occur at the head of `h`? Helper for Python `in` on strings. -/
def leadsWith : List Char → List Char → Bool
  | [], _ => true
  | _ :: _, [] => false
  | c :: cs, d :: ds => c == d && leadsWith cs ds

/-- Python substring test `n in h`, over the character lists. -/
def occursIn (n : List Char) : List Char → Bool
  | [] => leadsWith n []
  | c :: t => leadsWith n (c :: t) || occursIn n t

/-- `BANNED_KEYWORDS` (`main.py` line 53); a Python set used only for
iteration and membership, modelled as a list. -/
def BANNED_KEYWORDS : List String := ["fake", "terror", "hate"]

/-- `simple_moderation` (`main.py` lines 56-61): scan the lowercased
concatenation `f"\x7btitle\x7d\n\x7bcontent\x7d"` for banned keywords. -/
def simple_moderation (title content : String) : ModResult :=
  let text := toLowerStr (title ++ "\n" ++ content)
  let matched := BANNED_KEYWORDS.filter (fun w => occursIn w.data text.data)
  if matched ≠ [] then
    { status := "rejected", notes := "Contains flagged terms: " ++ joinComma matched }
  else
    { status := "approved", notes := "Auto-approved" }

/-- `simple_translate` (`main.py` lines 64-68): the placeholder translator
is the identity for target "en" and otherwise tags the text. -/
def simple_translate (text target_lang : String) : String :=
  if target_lang = "en" then text
  else "[" ++ target_lang ++ " translation] " ++ text

/-- Dictionary read `m.get(k)` on a `translated` map. -/
def lookupTrans (m : List (String × TransPair)) (k : String) : Option TransPair :=
  (m.find? (fun e => e.1 == k)).map (fun e => e.2)

/-- Mongo `$set` of `translated.k` to `v`: replace any entry under key `k`
and record the new value. -/
def setTrans (m : List (String × TransPair)) (k : String) (v : TransPair) :
    List (String × TransPair) :=
  (m.filter (fun e => !(e.1 == k))) ++ [(k, v)]

/-- `db.article.update_one(\x7b"_id": aid\x7d, \x7b"$set": \x7bf"translated.\x7bk\x7d": v\x7d\x7d)`:
write a translation cache entry through to the article collection. -/
def applyCacheWrite (arts : List Article) (aid k : String) (v : TransPair) :
    List Article :=
  arts.map (fun a =>
    if a.id == aid then { a with translated := setTrans a.translated k v } else a)

/-- `len(set(acats) & set(cats))` (`main.py` line 217). -/
def overlapCount (acats cats : List String) : Nat :=
  ((acats.dedup).filter (fun c => cats.contains c)).length

/-- The recency contribution of `score` (`main.py` lines 220-223):
`10.0 / max(1.0, age_in_hours)` when a creation time exists, else zero. -/
def recencyOf (now : ℚ) (a : Article) : ℚ :=
  match a.created_at with
  | some created => 10 / max 1 ((now - created) / 3600)
  | none => 0

/-- The prior-like contribution of `score` (`main.py` lines 225-226). -/
def likeTerm (liked : List String) (a : Article) : ℚ :=
  if liked.contains a.id then 3 else 0

/-- `score` (`main.py` lines 210-227): the additive relevance score of one
article given the user's interest categories and liked-article ids. -/
def score (now : ℚ) (cats liked : List String) (a : Article) : ℚ :=
  let s : ℚ := 0
  let s := if a.moderation_status = "approved" then s + 5 else s
  let s := if cats ≠ [] then s + (overlapCount a.categories cats : ℚ) * 2 else s
  let s := match a.created_at with
    | some created => s + 10 / max 1 ((now - created) / 3600)
    | none => s
  let s := if liked.contains a.id then s + 3 else s
  s

/-- `db.preference.find_one(\x7b"user_id": user_id\x7d)` (`main.py` line 192). -/
def prefOf (st : DBState) (uid : String) : Option Pref :=
  st.preferences.find? (fun p => p.user_id == uid)

/-- `language or pref.get("language")` (`main.py` line 193). -/
def resolvedLang (st : DBState) (uid : String) (language : Option String) :
    Option String :=
  pyOrStr language ((prefOf st uid).bind (fun p => p.language))

/-- `region or pref.get("region")` (`main.py` line 194). -/
def resolvedReg (st : DBState) (uid : String) (region : Option String) :
    Option String :=
  pyOrStr region ((prefOf st uid).bind (fun p => p.region))

/-- `pref.get("categories", [])` (`main.py` line 195). -/
def catsOf (st : DBState) (uid : String) : List String :=
  ((prefOf st uid).map (fun p => p.categories)).getD []

/-- The base query of `get_feed` (`main.py` lines 198-204): published, and
exact language/region match whenever the resolved value is truthy. -/
def feedMatches (lang reg : Option String) (a : Article) : Bool :=
  a.is_published
    && (if truthyStr lang then a.language == lang.getD "" else true)
    && (if truthyStr reg then a.region == some (reg.getD "") else true)

/-- Liked-article ids of a user (`main.py` lines 207-208): the article ids
of the user's interactions whose action is "like". -/
def likedOf (st : DBState) (uid : String) : List String :=
  ((st.interactions.filter (fun it => it.user_id == uid)).filter
      (fun it => it.action == "like")).map (fun it => it.article_id)

/-- The untranslated response item built from an article
(`main.py` lines 234-243). -/
def baseItem (a : Article) : FeedItem :=
  { id := a.id, title := a.title, content := a.content, language := a.language,
    region := a.region, categories := a.categories,
    moderation_status := a.moderation_status, created_at := a.created_at }

/-- Loop body of the feed's translation step (`main.py` lines 233-256):
given the resolved language, produce the response item and, on a cache
miss, the cache entry to persist. -/
def feedItemStep (lang : Option String) (a : Article) :
    FeedItem × Option (String × TransPair) :=
  match lang with
  | none => (baseItem a, none)
  | some l =>
    if l = "" then (baseItem a, none)
    else if a.language = l then (baseItem a, none)
    else
      match lookupTrans a.translated l with
      | some tr =>
          ({ baseItem a with
             title := tr.title,
             content := tr.content,
             language := l }, none)
      | none =>
          let tr_title := simple_translate a.title l
          let tr_content := simple_translate a.content l
          ({ baseItem a with
             title := tr_title,
             content := tr_content,
             language := l },
           some (l, ⟨tr_title, tr_content⟩))

/-- The `for a in articles[:limit]` loop of `get_feed`, iterating over the
selected snapshot while threading cache writes through the article
collection. -/
def feedLoop (lang : Option String) : List Article → List Article →
    List FeedItem × List Article
  | [], arts => ([], arts)
  | a :: rest, arts =>
      let r := feedItemStep lang a
      let arts2 := match r.2 with
        | none => arts
        | some kv => applyCacheWrite arts a.id kv.1 kv.2
      let res := feedLoop lang rest arts2
      (r.1 :: res.1, res.2)

/-- `get_feed` (`main.py` lines 184-258): resolve language/region, filter,
score, sort descending (stably), truncate to `limit`, translate with
write-through caching, and return the items plus the updated database. -/
def get_feed (now : ℚ) (st : DBState) (user_id : String)
    (language region : Option String) (limit : Nat) :
    List FeedItem × DBState :=
  let lang := resolvedLang st user_id language
  let reg := resolvedReg st user_id region
  let cats := catsOf st user_id
  let articles := st.articles.filter (feedMatches lang reg)
  let liked := likedOf st user_id
  let sorted := articles.mergeSort (fun a b =>
    decide (score now cats liked b ≤ score now cats liked a))
  let res := feedLoop lang (sorted.take limit) st.articles
  (res.1, { st with articles := res.2 })

/-- `create_article` (`main.py` lines 152-181): look up the submitter,
run the moderation gate (unverified submitters are marked pending), and
insert the published article. -/
def create_article (st : DBState) (user_id : String)
    (payload : ArticleCreateRequest) (now : ℚ) (newId : String) :
    Except ApiError (CreateResponse × DBState) :=
  match st.users.find? (fun u => u.id == user_id) with
  | none => Except.error ApiError.notFound
  | some user =>
      let moderation :=
        if !user.is_verified then
          ({ status := "pending", notes := "Awaiting manual review" } : ModResult)
        else
          simple_moderation payload.title payload.content
      let doc : Article :=
        { id := newId, title := payload.title, content := payload.content,
          language := payload.language, region := payload.region,
          categories := payload.categories,
          moderation_status := moderation.status, is_published := true,
          created_at := some now, translated := [] }
      Except.ok
        ({ id := newId, moderation_status := moderation.status,
           moderation_notes := moderation.notes },
         { st with articles := st.articles ++ [doc] })

/-- Is the string a well-formed 24-character hexadecimal ObjectId? -/
def isValidObjectId (s : String) : Bool :=
  (s.length == 24) && s.data.all (fun c =>
    (('0' ≤ c) && (c ≤ '9')) || (('a' ≤ c) && (c ≤ 'f'))
      || (('A' ≤ c) && (c ≤ 'F')))

/-- Line 263 of `main.py` runs before the try/except of the handler and
evaluates `db.article._Database__client.get_database().codec_options.document_class()(article_id)`:
the attribute access reaches for a name-mangled private of the database
class through a collection object, and the MongoDB driver's collections
reject attribute names that start with an underscore, so the statement
raises an unhandled exception (HTTP 500) on every request, before any id
validation runs. -/
def strayDriverLookup : Except ApiError Unit :=
  Except.error ApiError.internalError

/-- Lines 265-276 of `main.py`, the intended body of the standalone
translation endpoint: validate the id, look the article up, translate
title and content unconditionally, persist the pair, return it. -/
def translate_article_body (st : DBState) (article_id target_lang : String) :
    Except ApiError (TransPair × DBState) :=
  if isValidObjectId article_id = false then Except.error ApiError.invalidArgument
  else
    match st.articles.find? (fun a => a.id == article_id) with
    | none => Except.error ApiError.notFound
    | some a =>
        let tr_title := simple_translate a.title target_lang
        let tr_content := simple_translate a.content target_lang
        let arts2 := applyCacheWrite st.articles a.id target_lang
          ⟨tr_title, tr_content⟩
        Except.ok (⟨tr_title, tr_content⟩, { st with articles := arts2 })

/-- `translate_article` (`main.py` lines 261-276): line 263 runs first and
raises, so the rest of the handler is unreachable. -/
def translate_article (st : DBState) (article_id target_lang : String) :
    Except ApiError (TransPair × DBState) :=
  match strayDriverLookup with
  | Except.error e => Except.error e
  | Except.ok _ => translate_article_body st article_id target_lang

/-!
Helper lemmas shared by the claim theorems.
-/

/-- `leadsWith n h` holds exactly when `h` starts with `n`. -/
theorem leadsWith_iff (n : List Char) :
    ∀ h : List Char, leadsWith n h = true ↔ ∃ q, h = n ++ q := by
  induction n with
  | nil =>
      intro h
      simp [leadsWith]
  | cons c cs ih =>
      intro h
      cases h with
      | nil =>
          simp [leadsWith]
      | cons d ds =>
          constructor
          · intro hb
            rw [leadsWith, Bool.and_eq_true, beq_iff_eq] at hb
            obtain ⟨q, hq⟩ := (ih ds).mp hb.2
            exact ⟨q, by simp [hb.1, hq]⟩
          · rintro ⟨q, hq⟩
            injection hq with h1 h2
            rw [leadsWith, Bool.and_eq_true, beq_iff_eq]
            exact ⟨h1.symm, (ih ds).mpr ⟨q, h2⟩⟩

/-- `occursIn n h` holds exactly when `n` occurs contiguously in `h`:
soundness of the Python `in` model with respect to substring containment. -/
theorem occursIn_iff (n : List Char) :
    ∀ h : List Char, occursIn n h = true ↔ ∃ p q, h = p ++ n ++ q := by
  intro h
  induction h with
  | nil =>
      rw [occursIn, leadsWith_iff]
      constructor
      · rintro ⟨q, hq⟩
        exact ⟨[], q, by simpa using hq⟩
      · rintro ⟨p, q, hpq⟩
        have := hpq.symm
        simp only [List.append_assoc, List.append_eq_nil] at this
        exact ⟨[], by simp [this.2.1]⟩
  | cons c t ih =>
      rw [occursIn, Bool.or_eq_true, leadsWith_iff, ih]
      constructor
      · rintro (⟨q, hq⟩ | ⟨p, q, hpq⟩)
        · exact ⟨[], q, by simpa using hq⟩
        · exact ⟨c :: p, q, by simp [hpq]⟩
      · rintro ⟨p, q, hpq⟩
        cases p with
        | nil =>
            exact Or.inl ⟨q, by simpa using hpq⟩
        | cons c2 p2 =>
            injection hpq with h1 h2
            exact Or.inr ⟨p2, q, by simpa using h2⟩

/-- Filtering away every copy of `x` leaves a list that does not
contain `x`. -/
theorem contains_filter_not_beq (l : List String) (x : String) :
    (l.filter (fun y => !(y == x))).contains x = false := by
  have hx : ¬ x ∈ l.filter (fun y => !(y == x)) := by
    intro hmem
    have h2 := (List.mem_filter.mp hmem).2
    simp at h2
  simp [hx]

/-- Reading a translation cache right after writing it returns the value
just written. -/
theorem lookupTrans_setTrans (m : List (String × TransPair)) (k : String)
    (v : TransPair) : lookupTrans (setTrans m k v) k = some v := by
  unfold setTrans
  induction m with
  | nil => simp [lookupTrans, List.find?]
  | cons e t ih =>
      by_cases h : e.1 = k
      · have hb : (e.1 == k) = true := beq_iff_eq.mpr h
        rw [List.filter_cons]
        simpa [hb] using ih
      · have hb : (e.1 == k) = false := beq_eq_false_iff_ne.mpr h
        rw [List.filter_cons]
        simp only [hb, Bool.not_false, if_true, List.cons_append, lookupTrans,
          List.find?]
        exact ih

/-- The feed loop emits exactly one item per selected article. -/
theorem feedLoop_length (lang : Option String) :
    ∀ (sel arts : List Article), ((feedLoop lang sel arts).1).length = sel.length := by
  intro sel
  induction sel with
  | nil => intro arts; rfl
  | cons a rest ih =>
      intro arts
      simp only [feedLoop]
      simp [ih]

/-!
Sample data used by witnesses and counterexamples.
-/

/-- Sample article whose Spanish translation is already cached. -/
def artCache : Article :=
  { id := "a1", title := "T", content := "C", language := "en", region := none,
    categories := [], moderation_status := "approved", is_published := true,
    created_at := none, translated := [("es", ⟨"TT", "CC"⟩)] }

/-- Sample article with no cached translations. -/
def artFresh : Article :=
  { id := "a2", title := "T2", content := "C2", language := "en", region := none,
    categories := [], moderation_status := "approved", is_published := true,
    created_at := none, translated := [] }

/-- Sample article created half an hour before time zero. -/
def artRecent : Article :=
  { id := "a3", title := "T3", content := "C3", language := "en", region := none,
    categories := [], moderation_status := "approved", is_published := true,
    created_at := some (-1800), translated := [] }

/-- Sample database with one unverified user and two published articles. -/
def stSample : DBState :=
  { users := [{ id := "u1", is_verified := false }], preferences := [],
    interactions := [], articles := [artCache, artFresh] }

/-- Sample database holding one article under a well-formed ObjectId. -/
def stOid : DBState :=
  { users := [], preferences := [], interactions := [],
    articles := [{ id := "507f1f77bcf86cd799439011", title := "T", content := "C",
                   language := "en", region := none, categories := [],
                   moderation_status := "approved", is_published := true,
                   created_at := none, translated := [] }] }

/-!
Claim theorems.
-/

/-- C2: the claim says a malformed article id fails with InvalidArgument
and a missing article with NotFound; instead, every call to the standalone
translate endpoint fails with an unhandled internal error, because line
263 of `main.py` raises before the id is ever validated. -/
theorem translate_article_always_internal_error :
    ∀ (st : DBState) (article_id target_lang : String),
      translate_article st article_id target_lang
        = Except.error ApiError.internalError :=
  fun _ _ _ => rfl

/-- C7: the claim says the standalone translate endpoint recomputes,
persists and returns the pair for an existing article; instead, even for a
stored article under a well-formed id the call fails with the unhandled
internal error raised at line 263 of `main.py`. -/
theorem translate_article_existing_internal_error :
    translate_article stOid "507f1f77bcf86cd799439011" "es"
      = Except.error ApiError.internalError := rfl

/-- C6 counterexample: the Translator is not an identity when the target
language equals the language the text is written in — translating the
Spanish text "Hola" to target "es" changes it, because the placeholder is
an identity only for the target "en". -/
theorem simple_translate_not_source_identity :
    simple_translate "Hola" "es" ≠ "Hola" := by decide

/-- C6 amended: the Translator is an identity exactly when the target
language is "en" (the placeholder treats every input as English); for any
other target language, including the text's own source language, it
prepends a translation tag. -/
theorem simple_translate_en_identity :
    (∀ text : String, simple_translate text "en" = text)
    ∧ ∀ (text lang : String), lang ≠ "en" →
        simple_translate text lang = "[" ++ lang ++ " translation] " ++ text := by
  constructor
  · intro text
    simp [simple_translate]
  · intro text lang h
    simp [simple_translate, h]

/-- Witness for the amended C6 theorem at the inputs "Hello"/"en" and
"Hello"/"es". -/
theorem simple_translate_en_identity_w :
    simple_translate "Hello" "en" = "Hello"
    ∧ simple_translate "Hello" "es" = "[" ++ "es" ++ " translation] " ++ "Hello" :=
  ⟨simple_translate_en_identity.1 "Hello",
   simple_translate_en_identity.2 "Hello" "es" (by decide)⟩

/-- C10: a feed request whose language override is the empty string
resolves exactly as if no override had been supplied, and likewise for an
empty-string region override, because `language or ...` and `region or ...`
treat any falsy override as absent. -/
theorem get_feed_empty_override_fallback (now : ℚ) (st : DBState) (uid : String) :
    (∀ (region : Option String) (limit : Nat),
        get_feed now st uid (some "") region limit
          = get_feed now st uid none region limit)
    ∧ (∀ (language : Option String) (limit : Nat),
        get_feed now st uid language (some "") limit
          = get_feed now st uid language none limit) :=
  ⟨fun _ _ => rfl, fun _ _ => rfl⟩

/-- C1: in feed assembly, for every selected article, when a resolved
target language is set (truthy) and differs from the article's native
language, the emitted item takes a cached translation when one exists;
otherwise the Translator is invoked on title and content, the fresh pair
is recorded for persistence under the target language (and reading the
updated cache returns it), and the fresh pair is emitted; in both cases
the emitted item's language is the target language. -/
theorem feed_translation_step (l : String) (a : Article)
    (hl : l ≠ "") (hdiff : a.language ≠ l) :
    (∀ tr, lookupTrans a.translated l = some tr →
        feedItemStep (some l) a
          = ({ baseItem a with
               title := tr.title,
               content := tr.content,
               language := l }, none))
    ∧ (lookupTrans a.translated l = none →
        feedItemStep (some l) a
          = ({ baseItem a with
               title := simple_translate a.title l,
               content := simple_translate a.content l,
               language := l },
             some (l, ⟨simple_translate a.title l, simple_translate a.content l⟩))
        ∧ lookupTrans (setTrans a.translated l
              ⟨simple_translate a.title l, simple_translate a.content l⟩) l
            = some ⟨simple_translate a.title l, simple_translate a.content l⟩)
    ∧ (feedItemStep (some l) a).1.language = l := by
  refine ⟨?_, ?_, ?_⟩
  · intro tr htr
    simp [feedItemStep, hl, hdiff, htr]
  · intro hnone
    exact ⟨by simp [feedItemStep, hl, hdiff, hnone], lookupTrans_setTrans _ _ _⟩
  · cases htr : lookupTrans a.translated l <;>
      simp [feedItemStep, hl, hdiff, htr]

/-- Witness for C1: with target "es", the article with a cached Spanish
pair emits that pair without translating, and the article without one
emits an item whose language is "es". -/
theorem feed_translation_step_w :
    feedItemStep (some "es") artCache
      = ({ baseItem artCache with
           title := "TT",
           content := "CC",
           language := "es" }, none)
    ∧ (feedItemStep (some "es") artFresh).1.language = "es" :=
  ⟨(feed_translation_step "es" artCache (by decide) (by decide)).1 ⟨"TT", "CC"⟩ rfl,
   (feed_translation_step "es" artFresh (by decide) (by decide)).2.2⟩

/-- C3: the number of emitted feed items equals the minimum of the limit
and the number of published articles matching the resolved language and
region filter. -/
theorem feed_length_eq_min (now : ℚ) (st : DBState) (uid : String)
    (language region : Option String) (limit : Nat)
    (_hlo : 1 ≤ limit) (_hhi : limit ≤ 100) :
    ((get_feed now st uid language region limit).1).length
      = min limit ((st.articles.filter
          (feedMatches (resolvedLang st uid language)
            (resolvedReg st uid region))).length) := by
  simp only [get_feed]
  rw [feedLoop_length, List.length_take, List.length_mergeSort]

/-- Witness for C3 at a concrete request: limit 2 within bounds. -/
theorem feed_length_eq_min_w :
    ((get_feed 0 stSample "u1" none none 2).1).length
      = min 2 ((stSample.articles.filter
          (feedMatches (resolvedLang stSample "u1" none)
            (resolvedReg stSample "u1" none))).length) :=
  feed_length_eq_min 0 stSample "u1" none none 2 (by decide) (by decide)

/-- C4: the prior-like contribution of the relevance score is exactly 3
when the article id is among the liked ids and exactly 0 otherwise, and it
never takes any other value; removing the article's id from the liked set
removes exactly this contribution from the score. -/
theorem score_like_term (now : ℚ) (cats liked : List String) (a : Article) :
    score now cats liked a
      = score now cats (liked.filter (fun y => !(y == a.id))) a + likeTerm liked a
    ∧ (liked.contains a.id = true → likeTerm liked a = 3)
    ∧ (liked.contains a.id = false → likeTerm liked a = 0)
    ∧ (likeTerm liked a = 3 ∨ likeTerm liked a = 0) := by
  have hfilter := contains_filter_not_beq liked a.id
  refine ⟨?_, ?_, ?_, ?_⟩
  · simp only [score, likeTerm, hfilter]
    cases h : liked.contains a.id <;> simp [h]
  · intro h
    unfold likeTerm
    rw [if_pos h]
  · intro h
    unfold likeTerm
    rw [if_neg (by simp only [h]; exact Bool.false_ne_true)]
  · cases h : liked.contains a.id
    · exact Or.inr (by unfold likeTerm; rw [if_neg (by simp only [h]; exact Bool.false_ne_true)])
    · exact Or.inl (by unfold likeTerm; rw [if_pos h])

/-- Witness for C4: the bonus is 3 for a liked article and 0 for the same
article when nothing is liked. -/
theorem score_like_term_w :
    likeTerm ["a1"] artCache = 3 ∧ likeTerm [] artCache = 0 :=
  ⟨(score_like_term 0 [] ["a1"] artCache).2.1 (by decide),
   (score_like_term 0 [] [] artCache).2.2.1 (by decide)⟩

/-- C5: an article with a creation timestamp contributes exactly
`10 / max 1 age_in_hours` of recency to its relevance score, a quantity
bounded above by 10 and exactly 10 whenever the age is at most one hour;
an article without a timestamp contributes exactly zero. -/
theorem score_recency_term (now : ℚ) (cats liked : List String) (a : Article) :
    score now cats liked a
      = score now cats liked { a with created_at := none } + recencyOf now a
    ∧ recencyOf now a ≤ 10
    ∧ (∀ t, a.created_at = some t → (now - t) / 3600 ≤ 1 → recencyOf now a = 10)
    ∧ (a.created_at = none → recencyOf now a = 0) := by
  refine ⟨?_, ?_, ?_, ?_⟩
  · simp only [score, recencyOf]
    cases hc : a.created_at with
    | none => cases hl : liked.contains a.id <;> simp [hl]
    | some t =>
        cases hl : liked.contains a.id
        · simp [hl]
        · simp [hl]
          ring
  · unfold recencyOf
    cases hc : a.created_at with
    | none => norm_num
    | some t =>
        have h1 : (1 : ℚ) ≤ max 1 ((now - t) / 3600) := le_max_left _ _
        have h0 : (0 : ℚ) < max 1 ((now - t) / 3600) :=
          lt_of_lt_of_le one_pos h1
        rw [div_le_iff₀ h0]
        nlinarith
  · intro t ht hle
    simp [recencyOf, ht, max_eq_left hle]
  · intro h
    simp [recencyOf, h]

/-- Witness for C5: at time zero, an article created 1800 seconds earlier
(age half an hour) receives exactly 10, and one with no timestamp
receives 0. -/
theorem score_recency_term_w :
    recencyOf 0 artRecent = 10 ∧ recencyOf 0 artFresh = 0 :=
  ⟨(score_recency_term 0 [] [] artRecent).2.2.1 (-1800) rfl (by norm_num),
   (score_recency_term 0 [] [] artFresh).2.2.2 rfl⟩

/-- C8: an article submission by an existing unverified user succeeds with
moderation status "pending" and the fixed awaiting-review note, whatever
the submitted title and content are. -/
theorem create_article_unverified_pending (st : DBState) (uid : String)
    (payload : ArticleCreateRequest) (now : ℚ) (newId : String) (u : User)
    (hu : st.users.find? (fun x => x.id == uid) = some u)
    (hv : u.is_verified = false) :
    (create_article st uid payload now newId).toOption.map
        (fun r => (r.1.moderation_status, r.1.moderation_notes))
      = some ("pending", "Awaiting manual review") := by
  unfold create_article
  rw [hu]
  simp [hv, Except.toOption]

/-- Witness for C8: the unverified user "u1" submits content containing
the banned keyword "hate", and the result is still pending with the fixed
note. -/
theorem create_article_unverified_pending_w :
    (create_article stSample "u1"
        { title := "so much hate", content := "fake terror", language := "en",
          region := none, categories := [] } 0 "n1").toOption.map
        (fun r => (r.1.moderation_status, r.1.moderation_notes))
      = some ("pending", "Awaiting manual review") :=
  create_article_unverified_pending stSample "u1"
    { title := "so much hate", content := "fake terror", language := "en",
      region := none, categories := [] } 0 "n1" { id := "u1", is_verified := false }
    rfl rfl

/-- C9: for verified submissions the moderation gate decides by substring
containment on the lowercased concatenation of title and content: it
rejects exactly when some banned keyword occurs contiguously anywhere in
that string (also inside a longer word), approves otherwise, and the
rejection notes list the matched keywords. -/
theorem simple_moderation_substring (title content : String) :
    ((simple_moderation title content).status = "rejected"
        ↔ ∃ w, w ∈ BANNED_KEYWORDS ∧
            ∃ p q, (toLowerStr (title ++ "\n" ++ content)).data = p ++ w.data ++ q)
    ∧ ((simple_moderation title content).status = "approved"
        ↔ ¬ ∃ w, w ∈ BANNED_KEYWORDS ∧
            ∃ p q, (toLowerStr (title ++ "\n" ++ content)).data = p ++ w.data ++ q)
    ∧ ((simple_moderation title content).status = "rejected" →
        (simple_moderation title content).notes
          = "Contains flagged terms: "
              ++ joinComma (BANNED_KEYWORDS.filter (fun w =>
                    occursIn w.data (toLowerStr (title ++ "\n" ++ content)).data))) := by
  have hiff : (∃ w, w ∈ BANNED_KEYWORDS ∧
      ∃ p q, (toLowerStr (title ++ "\n" ++ content)).data = p ++ w.data ++ q)
      ↔ ∃ w, w ∈ BANNED_KEYWORDS ∧
          occursIn w.data (toLowerStr (title ++ "\n" ++ content)).data = true := by
    constructor
    · rintro ⟨w, hw, hpq⟩
      exact ⟨w, hw, (occursIn_iff _ _).mpr hpq⟩
    · rintro ⟨w, hw, h⟩
      exact ⟨w, hw, (occursIn_iff _ _).mp h⟩
  by_cases hm : BANNED_KEYWORDS.filter (fun w =>
      occursIn w.data (toLowerStr (title ++ "\n" ++ content)).data) = []
  · have hmod : simple_moderation title content
        = { status := "approved", notes := "Auto-approved" } := by
      unfold simple_moderation
      rw [if_neg (by simp [hm])]
    have hnone : ¬ ∃ w, w ∈ BANNED_KEYWORDS ∧
        occursIn w.data (toLowerStr (title ++ "\n" ++ content)).data = true := by
      rintro ⟨w, hw, h⟩
      exact absurd h (by simpa using List.filter_eq_nil_iff.mp hm w hw)
    refine ⟨?_, ?_, ?_⟩
    · rw [hmod, hiff]
      simp [hnone]
    · rw [hmod, hiff]
      simp [hnone]
    · intro hr
      rw [hmod] at hr
      simp at hr
  · have hmod : simple_moderation title content
        = { status := "rejected",
            notes := "Contains flagged terms: "
              ++ joinComma (BANNED_KEYWORDS.filter (fun w =>
                    occursIn w.data (toLowerStr (title ++ "\n" ++ content)).data)) } := by
      unfold simple_moderation
      rw [if_pos hm]
    have hsome : ∃ w, w ∈ BANNED_KEYWORDS ∧
        occursIn w.data (toLowerStr (title ++ "\n" ++ content)).data = true := by
      obtain ⟨w, hw⟩ := List.exists_mem_of_ne_nil _ hm
      have := List.mem_filter.mp hw
      exact ⟨w, this.1, this.2⟩
    refine ⟨?_, ?_, ?_⟩
    · rw [hmod, hiff]
      simp [hsome]
    · rw [hmod, hiff]
      simp [hsome]
    · intro _
      rw [hmod]

/-- Witness for C9: the text "so hateful" is rejected because "hate"
occurs inside the longer word "hateful", and the notes list the match. -/
theorem simple_moderation_substring_w :
    (simple_moderation "T" "so hateful").status = "rejected"
    ∧ (simple_moderation "T" "so hateful").notes
        = "Contains flagged terms: "
            ++ joinComma (BANNED_KEYWORDS.filter (fun w =>
                  occursIn w.data (toLowerStr ("T" ++ "\n" ++ "so hateful")).data)) :=
  have h := simple_moderation_substring "T" "so hateful"
  have hst : (simple_moderation "T" "so hateful").status = "rejected" :=
    h.1.mpr ⟨"hate", by decide, "t\nso ".data, "ful".data, by decide⟩
  ⟨hst, h.2.2 hst⟩
